import Mathlib

/-!
Verification of the `minitorch/datasets.py` dataset-generation module.

Shallow embedding conventions:
* Python `float` coordinates are modelled as exact rationals `ℚ`; the decimal
  literals `0.5`, `0.2`, `0.8`, `0.1` of the source are the corresponding
  rationals.
* Python `int` is modelled as `ℤ`; Python floor division `//` is `Int.fdiv`,
  and `range(n)` (resp. `range(a, b)`) is the list of the first `n.toNat`
  naturals (resp. an offset map over such a list), which is empty for
  non-positive lengths exactly as in Python.
* The ambient effects a generator uses — the process-wide random source
  `random.random()` and the floating-point library functions `math.cos` /
  `math.sin` — are gathered in an explicit environment `Env`: `rand i` is the
  `i`-th draw from the random stream, and `cos` / `sin` are arbitrary
  functions standing for the library approximations.  All theorems hold for
  every environment.
* The dict `datasets` is modelled as a total function returning `Option`;
  `none` models the `KeyError` (a `LookupError`) a missing key raises.
-/

namespace MiniTorch

/-- Ambient effects of the Python module: the process-wide random stream and
the `math.cos` / `math.sin` library functions. -/
structure Env where
  rand : ℕ → ℚ
  cos : ℚ → ℚ
  sin : ℚ → ℚ

/-- `make_pts(N)`: draw `N` points, each coordinate a fresh draw from the
random stream (the `i`-th loop iteration consumes draws `2*i` and `2*i+1`).
`range(N)` is empty for `N ≤ 0`. -/
def make_pts (env : Env) (N : ℤ) : List (ℚ × ℚ) :=
  (List.range N.toNat).map (fun i => (env.rand (2 * i), env.rand (2 * i + 1)))

/-- The `Graph` dataclass: requested count `N`, points `X`, labels `y`. -/
structure Graph where
  N : ℤ
  X : List (ℚ × ℚ)
  y : List ℤ
deriving DecidableEq

/-- `simple(N)`: label `1` if `x_1 < 0.5` else `0`. -/
def simple (env : Env) (N : ℤ) : Graph :=
  let X := make_pts env N
  let y := X.map (fun p => if p.1 < 0.5 then (1 : ℤ) else 0)
  ⟨N, X, y⟩

/-- `diag(N)`: label `1` if `x_1 + x_2 < 0.5` else `0`. -/
def diag (env : Env) (N : ℤ) : Graph :=
  let X := make_pts env N
  let y := X.map (fun p => if p.1 + p.2 < 0.5 then (1 : ℤ) else 0)
  ⟨N, X, y⟩

/-- `split(N)`: label `1` if `x_1 < 0.2 or x_1 > 0.8` else `0`. -/
def split (env : Env) (N : ℤ) : Graph :=
  let X := make_pts env N
  let y := X.map (fun p => if p.1 < 0.2 ∨ p.1 > 0.8 then (1 : ℤ) else 0)
  ⟨N, X, y⟩

/-- `xor(N)`: label `1` if `(x_1 < 0.5 and x_2 > 0.5) or (x_1 > 0.5 and
x_2 < 0.5)` else `0`. -/
def xor (env : Env) (N : ℤ) : Graph :=
  let X := make_pts env N
  let y := X.map (fun p =>
    if (p.1 < 0.5 ∧ p.2 > 0.5) ∨ (p.1 > 0.5 ∧ p.2 < 0.5) then (1 : ℤ) else 0)
  ⟨N, X, y⟩

/-- `circle(N)`: shift by the centre `(0.5, 0.5)`, label `1` if
`x1*x1 + x2*x2 > 0.1` else `0`. -/
def circle (env : Env) (N : ℤ) : Graph :=
  let X := make_pts env N
  let y := X.map (fun p =>
    let x1 := p.1 - 0.5
    let x2 := p.2 - 0.5
    if x1 * x1 + x2 * x2 > 0.1 then (1 : ℤ) else 0)
  ⟨N, X, y⟩

/-- `spiral(N)`: two parametric arms.  The inner curves are
`x(t) = t*cos(t)/20` and `y(t) = t*sin(t)/20`; the index `i` runs over the
Python range `[5, 5 + N//2)`, modelled as `5 + j` for `j < (N.fdiv 2).toNat`.
Arm A collects `(x(10*i/(N//2)) + 0.5, y(10*i/(N//2)) + 0.5)`, arm B swaps
the two curves and negates the parameter; labels are `[0]*(N//2) ++
[1]*(N//2)`. -/
def spiral (env : Env) (N : ℤ) : Graph :=
  let x : ℚ → ℚ := fun t => t * env.cos t / 20
  let y : ℚ → ℚ := fun t => t * env.sin t / 20
  let half : ℤ := N.fdiv 2
  let X₁ : List (ℚ × ℚ) := (List.range half.toNat).map (fun j =>
    let i : ℚ := ((5 + j : ℕ) : ℚ)
    (x (10 * (i / (half : ℚ))) + 0.5, y (10 * (i / (half : ℚ))) + 0.5))
  let X₂ : List (ℚ × ℚ) := (List.range half.toNat).map (fun j =>
    let i : ℚ := ((5 + j : ℕ) : ℚ)
    (y (-10 * (i / (half : ℚ))) + 0.5, x (-10 * (i / (half : ℚ))) + 0.5))
  let y2 : List ℤ := List.replicate half.toNat 0 ++ List.replicate half.toNat 1
  ⟨N, X₁ ++ X₂, y2⟩

/-- The `datasets` dict: name-keyed registry of the six generators; a missing
key is `none` (Python: `KeyError`, a `LookupError`). -/
def datasets (name : String) : Option (Env → ℤ → Graph) :=
  if name = "Simple" then some simple
  else if name = "Diag" then some diag
  else if name = "Split" then some split
  else if name = "Xor" then some xor
  else if name = "Circle" then some circle
  else if name = "Spiral" then some spiral
  else none

/-- A fixed environment used by concrete witnesses: every random draw is `0`,
and the trigonometric stand-ins are constantly `0`. -/
def env0 : Env := ⟨fun _ => 0, fun _ => 0, fun _ => 0⟩

/-- An environment whose random stream produces the spec's Simple fixtures
`(0.3, 0.9)`, `(0.7, 0.1)`, `(0.5, 0.5)`. -/
def envSimpleFix : Env :=
  ⟨fun i => ([0.3, 0.9, 0.7, 0.1, 0.5, 0.5] : List ℚ).getD i 0,
   fun _ => 0, fun _ => 0⟩

/-- An environment whose random stream produces the spec's Xor fixtures
`(0.2, 0.8)`, `(0.2, 0.2)`. -/
def envXorFix : Env :=
  ⟨fun i => ([0.2, 0.8, 0.2, 0.2] : List ℚ).getD i 0, fun _ => 0, fun _ => 0⟩

/-- An environment whose random stream produces the spec's Circle fixtures
`(0.5, 0.5)`, `(0.0, 0.0)`. -/
def envCircleFix : Env :=
  ⟨fun i => ([0.5, 0.5, 0, 0] : List ℚ).getD i 0, fun _ => 0, fun _ => 0⟩

/-- An environment whose random stream produces one point on each decision
boundary: `(0.5, 0.7)`, `(0.2, 0.3)`, `(0.8, 0.9)`, `(0.6, 0.8)`. -/
def envBound : Env :=
  ⟨fun i => ([0.5, 0.7, 0.2, 0.3, 0.8, 0.9, 0.6, 0.8] : List ℚ).getD i 0,
   fun _ => 0, fun _ => 0⟩

/-! ### Helper lemmas -/

/-- In the pairing of a list with its image under `f`, the second component of
every pair is `f` of the first. -/
lemma mem_zip_map {α β : Type} (f : α → β) (l : List α) (q : α × β)
    (hq : q ∈ l.zip (l.map f)) : q.2 = f q.1 := by
  induction l with
  | nil => simp at hq
  | cons a t ih =>
    rw [List.map_cons, List.zip_cons_cons] at hq
    rcases List.mem_cons.1 hq with h | h
    · subst h; rfl
    · exact ih h

/-- Every element of a map whose body is an `if _ then 1 else 0` is `0` or
`1`. -/
lemma mem_map_ite {α : Type} (P : α → Prop) [DecidablePred P] (X : List α)
    (l : ℤ) (hl : l ∈ X.map (fun p => if P p then (1 : ℤ) else 0)) :
    l = 0 ∨ l = 1 := by
  obtain ⟨p, _, hpl⟩ := List.mem_map.1 hl
  by_cases h : P p <;> simp [h] at hpl <;> omega

/-- Python `N // 2` on a non-negative `N`, coerced to `ℕ`, is `ℕ`-division
by two. -/
lemma fdiv_two_toNat {N : ℤ} (h : 0 ≤ N) : (N.fdiv 2).toNat = N.toNat / 2 := by
  obtain ⟨n, rfl⟩ := Int.eq_ofNat_of_zero_le h
  cases n with
  | zero => rfl
  | succ m => rfl

/-- Evaluation of `simple` on the Simple fixture points. -/
lemma simpleFix_zip :
    (simple envSimpleFix 3).X.zip (simple envSimpleFix 3).y
      = [((0.3, 0.9), 1), ((0.7, 0.1), 0), ((0.5, 0.5), 0)] := by
  norm_num [simple, make_pts, envSimpleFix, List.range_succ,
    show (3 : ℤ).toNat = 3 from rfl]

/-- Evaluation of `xor` on the Xor fixture points. -/
lemma xorFix_zip :
    (MiniTorch.xor envXorFix 2).X.zip (MiniTorch.xor envXorFix 2).y
      = [((0.2, 0.8), 1), ((0.2, 0.2), 0)] := by
  norm_num [MiniTorch.xor, make_pts, envXorFix, List.range_succ,
    show (2 : ℤ).toNat = 2 from rfl]

/-- Evaluation of `circle` on the Circle fixture points. -/
lemma circleFix_zip :
    (circle envCircleFix 2).X.zip (circle envCircleFix 2).y
      = [((0.5, 0.5), 0), ((0, 0), 1)] := by
  norm_num [circle, make_pts, envCircleFix, List.range_succ,
    show (2 : ℤ).toNat = 2 from rfl]

/-- Evaluation of `simple` on the boundary fixture points. -/
lemma bound_simple_zip :
    (simple envBound 4).X.zip (simple envBound 4).y
      = [((0.5, 0.7), 0), ((0.2, 0.3), 1), ((0.8, 0.9), 0), ((0.6, 0.8), 0)] := by
  norm_num [simple, make_pts, envBound, List.range_succ,
    show (4 : ℤ).toNat = 4 from rfl]

/-- Evaluation of `diag` on the boundary fixture points. -/
lemma bound_diag_zip :
    (diag envBound 4).X.zip (diag envBound 4).y
      = [((0.5, 0.7), 0), ((0.2, 0.3), 0), ((0.8, 0.9), 0), ((0.6, 0.8), 0)] := by
  norm_num [diag, make_pts, envBound, List.range_succ,
    show (4 : ℤ).toNat = 4 from rfl]

/-- Evaluation of `split` on the boundary fixture points. -/
lemma bound_split_zip :
    (split envBound 4).X.zip (split envBound 4).y
      = [((0.5, 0.7), 0), ((0.2, 0.3), 0), ((0.8, 0.9), 0), ((0.6, 0.8), 0)] := by
  norm_num [split, make_pts, envBound, List.range_succ,
    show (4 : ℤ).toNat = 4 from rfl]

/-- Evaluation of `xor` on the boundary fixture points. -/
lemma bound_xor_zip :
    (MiniTorch.xor envBound 4).X.zip (MiniTorch.xor envBound 4).y
      = [((0.5, 0.7), 0), ((0.2, 0.3), 0), ((0.8, 0.9), 0), ((0.6, 0.8), 0)] := by
  norm_num [MiniTorch.xor, make_pts, envBound, List.range_succ,
    show (4 : ℤ).toNat = 4 from rfl]

/-- Evaluation of `circle` on the boundary fixture points. -/
lemma bound_circle_zip :
    (circle envBound 4).X.zip (circle envBound 4).y
      = [((0.5, 0.7), 0), ((0.2, 0.3), 1), ((0.8, 0.9), 1), ((0.6, 0.8), 0)] := by
  norm_num [circle, make_pts, envBound, List.range_succ,
    show (4 : ℤ).toNat = 4 from rfl]

/-- The diagonal boundary fixture point sums to exactly `0.5`. -/
lemma diag_bound_sum : ((0.2 : ℚ), (0.3 : ℚ)).1 + ((0.2 : ℚ), (0.3 : ℚ)).2 = 0.5 := by
  norm_num

/-- The circle boundary fixture point has squared radius exactly `0.1`. -/
lemma circle_bound_radius :
    (((0.6 : ℚ), (0.8 : ℚ)).1 - 0.5) ^ 2 + (((0.6 : ℚ), (0.8 : ℚ)).2 - 0.5) ^ 2
      = 0.1 := by
  norm_num

/-! ### Claim theorems -/

/-- C2: For every `N ≥ 0` (and every environment), `spiral` returns exactly
`2 * (N // 2)` points, and its label list is exactly `N // 2` zeros followed
by `N // 2` ones. -/
theorem spiral_shape (env : Env) (N : ℤ) (h : 0 ≤ N) :
    (spiral env N).X.length = 2 * (N.toNat / 2) ∧
    (spiral env N).y
      = List.replicate (N.toNat / 2) 0 ++ List.replicate (N.toNat / 2) 1 := by
  constructor
  · simp [spiral, fdiv_two_toNat h]
    omega
  · simp [spiral, fdiv_two_toNat h]

/-- C2 witness: at `N = 4` the spiral output has 4 points and label list
`[0, 0, 1, 1]`. -/
theorem spiral_shape_witness :
    0 ≤ (4 : ℤ) ∧
    ((spiral env0 4).X.length = 2 * ((4 : ℤ).toNat / 2) ∧
     (spiral env0 4).y
       = List.replicate ((4 : ℤ).toNat / 2) 0
         ++ List.replicate ((4 : ℤ).toNat / 2) 1) :=
  ⟨by decide, spiral_shape env0 4 (by decide)⟩

/-- C3: for every `N ≥ 0` and each of the five non-spiral rules, the result
has exactly `N` points and exactly `N` labels. -/
theorem nonspiral_lengths (env : Env) (N : ℤ) (h : 0 ≤ N) :
    (((simple env N).X.length : ℤ) = N ∧ ((simple env N).y.length : ℤ) = N) ∧
    (((diag env N).X.length : ℤ) = N ∧ ((diag env N).y.length : ℤ) = N) ∧
    (((split env N).X.length : ℤ) = N ∧ ((split env N).y.length : ℤ) = N) ∧
    (((MiniTorch.xor env N).X.length : ℤ) = N ∧
      ((MiniTorch.xor env N).y.length : ℤ) = N) ∧
    (((circle env N).X.length : ℤ) = N ∧ ((circle env N).y.length : ℤ) = N) := by
  simp [simple, diag, split, MiniTorch.xor, circle, make_pts,
    Int.toNat_of_nonneg h]

/-- C3 witness: at `N = 3` each non-spiral rule yields 3 points and
3 labels. -/
theorem nonspiral_lengths_witness :
    0 ≤ (3 : ℤ) ∧
    ((((simple env0 3).X.length : ℤ) = 3 ∧ ((simple env0 3).y.length : ℤ) = 3) ∧
     (((diag env0 3).X.length : ℤ) = 3 ∧ ((diag env0 3).y.length : ℤ) = 3) ∧
     (((split env0 3).X.length : ℤ) = 3 ∧ ((split env0 3).y.length : ℤ) = 3) ∧
     (((MiniTorch.xor env0 3).X.length : ℤ) = 3 ∧
       ((MiniTorch.xor env0 3).y.length : ℤ) = 3) ∧
     (((circle env0 3).X.length : ℤ) = 3 ∧ ((circle env0 3).y.length : ℤ) = 3)) :=
  ⟨by decide, nonspiral_lengths env0 3 (by decide)⟩

/-- C1 counterexample: at `N = 1` (which is `≥ 0`) the spiral generator
stores `count = 1` but produces `0` points, so
`len(points) == len(labels) == count` fails. -/
theorem counts_claim_cex :
    ¬ (((spiral env0 1).X.length : ℤ) = (spiral env0 1).N ∧
       ((spiral env0 1).y.length : ℤ) = (spiral env0 1).N) := by
  decide

/-- C1 (amended): for every environment and `N ≥ 0`,
`len(points) == len(labels)` holds for all six rules; that common length
equals the stored `count` for the five non-spiral rules, and for `spiral`
exactly when `N` is even (for odd `N` the stored count is `N` while
`2 * (N // 2) = N - 1` samples are produced). -/
theorem counts_invariant (env : Env) (N : ℤ) (h : 0 ≤ N) :
    ((simple env N).X.length = (simple env N).y.length ∧
      ((simple env N).X.length : ℤ) = (simple env N).N) ∧
    ((diag env N).X.length = (diag env N).y.length ∧
      ((diag env N).X.length : ℤ) = (diag env N).N) ∧
    ((split env N).X.length = (split env N).y.length ∧
      ((split env N).X.length : ℤ) = (split env N).N) ∧
    ((MiniTorch.xor env N).X.length = (MiniTorch.xor env N).y.length ∧
      ((MiniTorch.xor env N).X.length : ℤ) = (MiniTorch.xor env N).N) ∧
    ((circle env N).X.length = (circle env N).y.length ∧
      ((circle env N).X.length : ℤ) = (circle env N).N) ∧
    ((spiral env N).X.length = (spiral env N).y.length ∧
      (2 ∣ N → ((spiral env N).X.length : ℤ) = (spiral env N).N)) := by
  refine ⟨?_, ?_, ?_, ?_, ?_, ?_, ?_⟩
  · simp [simple, make_pts, Int.toNat_of_nonneg h]
  · simp [diag, make_pts, Int.toNat_of_nonneg h]
  · simp [split, make_pts, Int.toNat_of_nonneg h]
  · simp [MiniTorch.xor, make_pts, Int.toNat_of_nonneg h]
  · simp [circle, make_pts, Int.toNat_of_nonneg h]
  · simp [spiral]
  · intro hdvd
    simp [spiral, fdiv_two_toNat h]
    omega

/-- C1 witness: the amended invariant instantiated at `N = 2`. -/
theorem counts_invariant_witness :
    0 ≤ (2 : ℤ) ∧
    (((simple env0 2).X.length = (simple env0 2).y.length ∧
       ((simple env0 2).X.length : ℤ) = (simple env0 2).N) ∧
     ((diag env0 2).X.length = (diag env0 2).y.length ∧
       ((diag env0 2).X.length : ℤ) = (diag env0 2).N) ∧
     ((split env0 2).X.length = (split env0 2).y.length ∧
       ((split env0 2).X.length : ℤ) = (split env0 2).N) ∧
     ((MiniTorch.xor env0 2).X.length = (MiniTorch.xor env0 2).y.length ∧
       ((MiniTorch.xor env0 2).X.length : ℤ) = (MiniTorch.xor env0 2).N) ∧
     ((circle env0 2).X.length = (circle env0 2).y.length ∧
       ((circle env0 2).X.length : ℤ) = (circle env0 2).N) ∧
     ((spiral env0 2).X.length = (spiral env0 2).y.length ∧
       (2 ∣ (2 : ℤ) → ((spiral env0 2).X.length : ℤ) = (spiral env0 2).N))) :=
  ⟨by decide, counts_invariant env0 2 (by decide)⟩

/-- C4: looking up each of the six exact names in the registry returns the
corresponding generator itself, and looking up any other name fails
(returns `none`, modelling the `KeyError`). -/
theorem datasets_registry :
    datasets "Simple" = some simple ∧
    datasets "Diag" = some diag ∧
    datasets "Split" = some split ∧
    datasets "Xor" = some MiniTorch.xor ∧
    datasets "Circle" = some circle ∧
    datasets "Spiral" = some spiral ∧
    ∀ name : String,
      name ∉ (["Simple", "Diag", "Split", "Xor", "Circle", "Spiral"] : List String) →
      datasets name = none := by
  refine ⟨rfl, rfl, rfl, rfl, rfl, rfl, ?_⟩
  intro name hname
  simp only [List.mem_cons, List.not_mem_nil, or_false, not_or] at hname
  obtain ⟨h1, h2, h3, h4, h5, h6⟩ := hname
  simp [datasets, h1, h2, h3, h4, h5, h6]

/-- C4 witness: the unknown name `"NotARule"` is absent from the six keys and
its lookup fails. -/
theorem datasets_registry_witness :
    "NotARule" ∉ (["Simple", "Diag", "Split", "Xor", "Circle", "Spiral"] : List String) ∧
    datasets "NotARule" = none :=
  ⟨by decide, datasets_registry.2.2.2.2.2.2 "NotARule" (by decide)⟩

/-- C5: every label produced by any of the six rules, for every environment
and every `N`, is `0` or `1`. -/
theorem labels_binary (env : Env) (N : ℤ) :
    (∀ l ∈ (simple env N).y, l = 0 ∨ l = 1) ∧
    (∀ l ∈ (diag env N).y, l = 0 ∨ l = 1) ∧
    (∀ l ∈ (split env N).y, l = 0 ∨ l = 1) ∧
    (∀ l ∈ (MiniTorch.xor env N).y, l = 0 ∨ l = 1) ∧
    (∀ l ∈ (circle env N).y, l = 0 ∨ l = 1) ∧
    (∀ l ∈ (spiral env N).y, l = 0 ∨ l = 1) := by
  refine ⟨?_, ?_, ?_, ?_, ?_, ?_⟩
  · intro l hl
    simp only [simple] at hl
    exact mem_map_ite (fun p : ℚ × ℚ => p.1 < 0.5) _ l hl
  · intro l hl
    simp only [diag] at hl
    exact mem_map_ite (fun p : ℚ × ℚ => p.1 + p.2 < 0.5) _ l hl
  · intro l hl
    simp only [split] at hl
    exact mem_map_ite (fun p : ℚ × ℚ => p.1 < 0.2 ∨ p.1 > 0.8) _ l hl
  · intro l hl
    simp only [MiniTorch.xor] at hl
    exact mem_map_ite
      (fun p : ℚ × ℚ => (p.1 < 0.5 ∧ p.2 > 0.5) ∨ (p.1 > 0.5 ∧ p.2 < 0.5)) _ l hl
  · intro l hl
    simp only [circle] at hl
    exact mem_map_ite
      (fun p : ℚ × ℚ => (p.1 - 0.5) * (p.1 - 0.5) + (p.2 - 0.5) * (p.2 - 0.5) > 0.1)
      _ l hl
  · intro l hl
    simp only [spiral] at hl
    rcases List.mem_append.1 hl with h | h
    · exact Or.inl (List.eq_of_mem_replicate h)
    · exact Or.inr (List.eq_of_mem_replicate h)

/-- C5 witness: concrete labels of each rule at `N = 2` in the all-zero
environment are `0` or `1`. -/
theorem labels_binary_witness :
    ((1 : ℤ) ∈ (simple env0 2).y ∧ ((1 : ℤ) = 0 ∨ (1 : ℤ) = 1)) ∧
    ((0 : ℤ) ∈ (spiral env0 2).y ∧ ((0 : ℤ) = 0 ∨ (0 : ℤ) = 1)) :=
  ⟨⟨by simp [simple, make_pts, env0, List.range_succ,
      show (2 : ℤ).toNat = 2 from rfl, show ((0 : ℚ) < 0.5) from by norm_num],
    (labels_binary env0 2).1 1 (by simp [simple, make_pts, env0, List.range_succ,
      show (2 : ℤ).toNat = 2 from rfl, show ((0 : ℚ) < 0.5) from by norm_num])⟩,
   ⟨by decide, (labels_binary env0 2).2.2.2.2.2 0 (by decide)⟩⟩

/-- C6: the Simple rule labels a point `1` exactly when `x₁ < 0.5` and `0`
otherwise, independently of `x₂`; on the fixture points, `(0.3, 0.9)` gets
label `1`, `(0.7, 0.1)` label `0`, and `(0.5, 0.5)` label `0`. -/
theorem simple_char :
    (∀ (env : Env) (N : ℤ),
      ∀ q ∈ (simple env N).X.zip (simple env N).y,
        (q.2 = 1 ↔ q.1.1 < 0.5) ∧ (q.2 = 0 ↔ ¬ q.1.1 < 0.5)) ∧
    (simple envSimpleFix 3).X.zip (simple envSimpleFix 3).y
      = [((0.3, 0.9), 1), ((0.7, 0.1), 0), ((0.5, 0.5), 0)] := by
  refine ⟨?_, simpleFix_zip⟩
  intro env N q hq
  simp only [simple] at hq
  have h := mem_zip_map _ _ q hq
  by_cases hc : q.1.1 < 0.5 <;> simp [hc] at h <;> simp [h, hc]

/-- C6 witness: the fixture pair `((0.3, 0.9), 1)` is produced by `simple`
and satisfies the characterization. -/
theorem simple_char_witness :
    (((0.3, 0.9), (1 : ℤ)) ∈ (simple envSimpleFix 3).X.zip (simple envSimpleFix 3).y) ∧
    (((((0.3 : ℚ), (0.9 : ℚ)), (1 : ℤ)).2 = 1 ↔ ((0.3 : ℚ), (0.9 : ℚ)).1 < 0.5) ∧
     ((((0.3 : ℚ), (0.9 : ℚ)), (1 : ℤ)).2 = 0 ↔ ¬ ((0.3 : ℚ), (0.9 : ℚ)).1 < 0.5)) :=
  ⟨by simp [simpleFix_zip],
   simple_char.1 envSimpleFix 3 ((0.3, 0.9), 1) (by simp [simpleFix_zip])⟩

/-- C7: the Xor rule labels a point `1` exactly when
`(x₁ < 0.5 ∧ x₂ > 0.5) ∨ (x₁ > 0.5 ∧ x₂ < 0.5)` and `0` otherwise; on the
fixture points, `(0.2, 0.8)` gets label `1` and `(0.2, 0.2)` label `0`. -/
theorem xor_char :
    (∀ (env : Env) (N : ℤ),
      ∀ q ∈ (MiniTorch.xor env N).X.zip (MiniTorch.xor env N).y,
        (q.2 = 1 ↔ ((q.1.1 < 0.5 ∧ q.1.2 > 0.5) ∨ (q.1.1 > 0.5 ∧ q.1.2 < 0.5))) ∧
        (q.2 = 0 ↔ ¬ ((q.1.1 < 0.5 ∧ q.1.2 > 0.5) ∨ (q.1.1 > 0.5 ∧ q.1.2 < 0.5)))) ∧
    (MiniTorch.xor envXorFix 2).X.zip (MiniTorch.xor envXorFix 2).y
      = [((0.2, 0.8), 1), ((0.2, 0.2), 0)] := by
  refine ⟨?_, xorFix_zip⟩
  intro env N q hq
  simp only [MiniTorch.xor] at hq
  have h := mem_zip_map _ _ q hq
  by_cases hc : (q.1.1 < 0.5 ∧ q.1.2 > 0.5) ∨ (q.1.1 > 0.5 ∧ q.1.2 < 0.5) <;>
    simp [hc] at h <;> simp [h, hc]

/-- C7 witness: the fixture pair `((0.2, 0.8), 1)` is produced by `xor` and
satisfies the characterization. -/
theorem xor_char_witness :
    (((0.2, 0.8), (1 : ℤ))
        ∈ (MiniTorch.xor envXorFix 2).X.zip (MiniTorch.xor envXorFix 2).y) ∧
    (((((0.2 : ℚ), (0.8 : ℚ)), (1 : ℤ)).2 = 1 ↔
        ((((0.2 : ℚ), (0.8 : ℚ)).1 < 0.5 ∧ ((0.2 : ℚ), (0.8 : ℚ)).2 > 0.5) ∨
         (((0.2 : ℚ), (0.8 : ℚ)).1 > 0.5 ∧ ((0.2 : ℚ), (0.8 : ℚ)).2 < 0.5))) ∧
     ((((0.2 : ℚ), (0.8 : ℚ)), (1 : ℤ)).2 = 0 ↔
        ¬ ((((0.2 : ℚ), (0.8 : ℚ)).1 < 0.5 ∧ ((0.2 : ℚ), (0.8 : ℚ)).2 > 0.5) ∨
           (((0.2 : ℚ), (0.8 : ℚ)).1 > 0.5 ∧ ((0.2 : ℚ), (0.8 : ℚ)).2 < 0.5)))) :=
  ⟨by simp [xorFix_zip],
   xor_char.1 envXorFix 2 ((0.2, 0.8), 1) (by simp [xorFix_zip])⟩

/-- C8: the Circle rule labels a point `1` exactly when
`(x₁ - 0.5)² + (x₂ - 0.5)² > 0.1` and `0` otherwise; on the fixture points,
the centre `(0.5, 0.5)` gets label `0` and the corner `(0, 0)` (squared
distance `0.5`) gets label `1`. -/
theorem circle_char :
    (∀ (env : Env) (N : ℤ),
      ∀ q ∈ (circle env N).X.zip (circle env N).y,
        (q.2 = 1 ↔ (q.1.1 - 0.5) ^ 2 + (q.1.2 - 0.5) ^ 2 > 0.1) ∧
        (q.2 = 0 ↔ ¬ (q.1.1 - 0.5) ^ 2 + (q.1.2 - 0.5) ^ 2 > 0.1)) ∧
    (circle envCircleFix 2).X.zip (circle envCircleFix 2).y
      = [((0.5, 0.5), 0), ((0, 0), 1)] := by
  refine ⟨?_, circleFix_zip⟩
  intro env N q hq
  simp only [circle] at hq
  have h := mem_zip_map _ _ q hq
  simp only [← pow_two] at h
  by_cases hc : (q.1.1 - 0.5) ^ 2 + (q.1.2 - 0.5) ^ 2 > 0.1 <;>
    simp [hc] at h <;> simp [h, hc]

/-- C8 witness: the fixture pair `((0, 0), 1)` is produced by `circle` and
satisfies the characterization. -/
theorem circle_char_witness :
    (((0, 0), (1 : ℤ)) ∈ (circle envCircleFix 2).X.zip (circle envCircleFix 2).y) ∧
    (((((0 : ℚ), (0 : ℚ)), (1 : ℤ)).2 = 1 ↔
        (((0 : ℚ), (0 : ℚ)).1 - 0.5) ^ 2 + (((0 : ℚ), (0 : ℚ)).2 - 0.5) ^ 2 > 0.1) ∧
     ((((0 : ℚ), (0 : ℚ)), (1 : ℤ)).2 = 0 ↔
        ¬ (((0 : ℚ), (0 : ℚ)).1 - 0.5) ^ 2 + (((0 : ℚ), (0 : ℚ)).2 - 0.5) ^ 2 > 0.1)) :=
  ⟨by simp [circleFix_zip],
   circle_char.1 envCircleFix 2 ((0, 0), 1) (by simp [circleFix_zip])⟩

/-- Python `N // 2`, coerced to `ℕ`, is `0` whenever `N ≤ 1` (in particular
for every negative `N` and for `N = 0, 1`). -/
lemma fdiv_two_toNat_eq_zero {N : ℤ} (h : N ≤ 1) : (N.fdiv 2).toNat = 0 := by
  rcases le_or_lt 0 N with hpos | hneg
  · obtain ⟨n, rfl⟩ := Int.eq_ofNat_of_zero_le hpos
    have hn : n ≤ 1 := by exact_mod_cast h
    interval_cases n <;> rfl
  · obtain ⟨m, rfl⟩ := Int.eq_negSucc_of_lt_zero hneg
    rfl

/-- C9: a point lying exactly on a rule's decision boundary receives label
`0`: `x₁ = 0.5` under Simple, `x₁ + x₂ = 0.5` under Diag, `x₁ = 0.2` or
`x₁ = 0.8` under Split, `x₁ = 0.5` or `x₂ = 0.5` under Xor, and squared
radius exactly `0.1` under Circle. -/
theorem boundary_label_zero :
    (∀ (env : Env) (N : ℤ), ∀ q ∈ (simple env N).X.zip (simple env N).y,
      q.1.1 = 0.5 → q.2 = 0) ∧
    (∀ (env : Env) (N : ℤ), ∀ q ∈ (diag env N).X.zip (diag env N).y,
      q.1.1 + q.1.2 = 0.5 → q.2 = 0) ∧
    (∀ (env : Env) (N : ℤ), ∀ q ∈ (split env N).X.zip (split env N).y,
      q.1.1 = 0.2 ∨ q.1.1 = 0.8 → q.2 = 0) ∧
    (∀ (env : Env) (N : ℤ),
      ∀ q ∈ (MiniTorch.xor env N).X.zip (MiniTorch.xor env N).y,
      q.1.1 = 0.5 ∨ q.1.2 = 0.5 → q.2 = 0) ∧
    (∀ (env : Env) (N : ℤ), ∀ q ∈ (circle env N).X.zip (circle env N).y,
      (q.1.1 - 0.5) ^ 2 + (q.1.2 - 0.5) ^ 2 = 0.1 → q.2 = 0) := by
  refine ⟨?_, ?_, ?_, ?_, ?_⟩
  · intro env N q hq hb
    simp only [simple] at hq
    have h := mem_zip_map _ _ q hq
    rw [hb] at h
    simpa using h
  · intro env N q hq hb
    simp only [diag] at hq
    have h := mem_zip_map _ _ q hq
    rw [hb] at h
    simpa using h
  · intro env N q hq hb
    simp only [split] at hq
    have h := mem_zip_map _ _ q hq
    rcases hb with hb | hb <;> rw [hb] at h <;> norm_num at h <;> exact h
  · intro env N q hq hb
    simp only [MiniTorch.xor] at hq
    have h := mem_zip_map _ _ q hq
    rcases hb with hb | hb <;> rw [hb] at h <;> norm_num at h <;> exact h
  · intro env N q hq hb
    simp only [circle] at hq
    have h := mem_zip_map _ _ q hq
    simp only [← pow_two] at h
    rw [hb] at h
    simpa using h

/-- C9 witness: one concrete boundary point per rule, produced by the rule at
the boundary fixture environment, gets label `0`. -/
theorem boundary_label_zero_witness :
    ((((0.5, 0.7), (0 : ℤ)) ∈ (simple envBound 4).X.zip (simple envBound 4).y) ∧
      (((0.5 : ℚ), (0.7 : ℚ)), (0 : ℤ)).2 = 0) ∧
    ((((0.2, 0.3), (0 : ℤ)) ∈ (diag envBound 4).X.zip (diag envBound 4).y) ∧
      (((0.2 : ℚ), (0.3 : ℚ)), (0 : ℤ)).2 = 0) ∧
    ((((0.2, 0.3), (0 : ℤ)) ∈ (split envBound 4).X.zip (split envBound 4).y) ∧
      (((0.2 : ℚ), (0.3 : ℚ)), (0 : ℤ)).2 = 0) ∧
    ((((0.8, 0.9), (0 : ℤ)) ∈ (split envBound 4).X.zip (split envBound 4).y) ∧
      (((0.8 : ℚ), (0.9 : ℚ)), (0 : ℤ)).2 = 0) ∧
    ((((0.5, 0.7), (0 : ℤ))
        ∈ (MiniTorch.xor envBound 4).X.zip (MiniTorch.xor envBound 4).y) ∧
      (((0.5 : ℚ), (0.7 : ℚ)), (0 : ℤ)).2 = 0) ∧
    ((((0.6, 0.8), (0 : ℤ)) ∈ (circle envBound 4).X.zip (circle envBound 4).y) ∧
      (((0.6 : ℚ), (0.8 : ℚ)), (0 : ℤ)).2 = 0) :=
  ⟨⟨by simp [bound_simple_zip],
    boundary_label_zero.1 envBound 4 ((0.5, 0.7), 0) (by simp [bound_simple_zip]) rfl⟩,
   ⟨by simp [bound_diag_zip],
    boundary_label_zero.2.1 envBound 4 ((0.2, 0.3), 0) (by simp [bound_diag_zip])
      diag_bound_sum⟩,
   ⟨by simp [bound_split_zip],
    boundary_label_zero.2.2.1 envBound 4 ((0.2, 0.3), 0) (by simp [bound_split_zip])
      (Or.inl rfl)⟩,
   ⟨by simp [bound_split_zip],
    boundary_label_zero.2.2.1 envBound 4 ((0.8, 0.9), 0) (by simp [bound_split_zip])
      (Or.inr rfl)⟩,
   ⟨by simp [bound_xor_zip],
    boundary_label_zero.2.2.2.1 envBound 4 ((0.5, 0.7), 0) (by simp [bound_xor_zip])
      (Or.inl rfl)⟩,
   ⟨by simp [bound_circle_zip],
    boundary_label_zero.2.2.2.2 envBound 4 ((0.6, 0.8), 0) (by simp [bound_circle_zip])
      circle_bound_radius⟩⟩

/-- C10: for every negative `N` each of the six generators returns a result
with empty points, empty labels, and `N` stored as count; `spiral` at any
`N ≤ 1` (so `N = 0` and `N = 1` included) also returns empty points and
labels, and its index range `[5, 5 + N // 2)` is empty, so the parametric
body with its `N // 2` divisor is never evaluated. -/
theorem degenerate_inputs (env : Env) (N : ℤ) :
    (N < 0 →
      simple env N = ⟨N, [], []⟩ ∧ diag env N = ⟨N, [], []⟩ ∧
      split env N = ⟨N, [], []⟩ ∧ MiniTorch.xor env N = ⟨N, [], []⟩ ∧
      circle env N = ⟨N, [], []⟩ ∧ spiral env N = ⟨N, [], []⟩) ∧
    (N ≤ 1 →
      spiral env N = ⟨N, [], []⟩ ∧ List.range (N.fdiv 2).toNat = []) := by
  constructor
  · intro hneg
    have htn : N.toNat = 0 := Int.toNat_eq_zero.mpr (le_of_lt hneg)
    have hfd : (N.fdiv 2).toNat = 0 := fdiv_two_toNat_eq_zero (by omega)
    refine ⟨?_, ?_, ?_, ?_, ?_, ?_⟩ <;>
      simp [simple, diag, split, MiniTorch.xor, circle, spiral, make_pts, htn, hfd]
  · intro hle
    have hfd : (N.fdiv 2).toNat = 0 := fdiv_two_toNat_eq_zero hle
    exact ⟨by simp [spiral, hfd], by simp [hfd]⟩

/-- C10 witness: the degenerate cases instantiated at `N = -1`, `N = 0` and
`N = 1`. -/
theorem degenerate_inputs_witness :
    ((-1 : ℤ) < 0 ∧
      (simple env0 (-1) = ⟨-1, [], []⟩ ∧ diag env0 (-1) = ⟨-1, [], []⟩ ∧
       split env0 (-1) = ⟨-1, [], []⟩ ∧ MiniTorch.xor env0 (-1) = ⟨-1, [], []⟩ ∧
       circle env0 (-1) = ⟨-1, [], []⟩ ∧ spiral env0 (-1) = ⟨-1, [], []⟩)) ∧
    ((0 : ℤ) ≤ 1 ∧
      (spiral env0 0 = ⟨0, [], []⟩ ∧ List.range ((0 : ℤ).fdiv 2).toNat = [])) ∧
    ((1 : ℤ) ≤ 1 ∧
      (spiral env0 1 = ⟨1, [], []⟩ ∧ List.range ((1 : ℤ).fdiv 2).toNat = [])) :=
  ⟨⟨by decide, (degenerate_inputs env0 (-1)).1 (by decide)⟩,
   ⟨by decide, (degenerate_inputs env0 0).2 (by decide)⟩,
   ⟨by decide, (degenerate_inputs env0 1).2 (by decide)⟩⟩

end MiniTorch
